import Mathlib

/-
Verification development for the RobustTimer repository
(src/include/RobustTimer.hpp, src/source/RobustTimer.cpp).

The C++ class RobustTimer is embedded shallowly:
  - the process-wide table  std::map<int, RobustTimer*> signal_map_  becomes
    an association list from signal number to the stored pointer value;
  - straight-line stateful member functions (the constructor, the destructor,
    RobustTimer::signalHandler) become functions that return both the updated
    state and the ordered trace of the primitive operations they perform;
  - the per-instance mutable fields touched by start / stop / changeTimeout
    (timeout_ns_, is_running_) become a small state record, and each member
    function returns the new state, the list of timer_settime calls it issued
    and whether it threw (timer_settime failure is an input oracle, since the
    OS result is not determined by the program state).
Machine integers: timeout_ns_ has C++ type long; it is modelled as Int, and
the truncating C division / remainder used by armTimer are Int.tdiv / Int.tmod.
-/

namespace RobustTimer

/-- Identifier standing for a RobustTimer object: the value of a
RobustTimer pointer as stored in the registry. -/
abbrev InstId := Nat

/-- The process-wide registry std::map<int, RobustTimer*> signal_map_,
as an association list from signal number to the stored pointer.
The inner Option models the stored pointer itself, which could be null. -/
abbrev SignalMap := List (Nat × Option InstId)

/-- signal_map_.find(signo): some v when the key signo is present
(v being the stored pointer, itself possibly null) and none when absent. -/
def findSig (m : SignalMap) (s : Nat) : Option (Option InstId) :=
  (m.find? (fun p => p.1 == s)).map (fun p => p.2)

/-- signal_map_.erase(signo): drop every entry with key signo. -/
def eraseSig (m : SignalMap) (s : Nat) : SignalMap :=
  m.filter (fun p => !(p.1 == s))

/-- signal_map_[signo] = ptr: store ptr under key signo. -/
def insertSig (m : SignalMap) (s : Nat) (i : InstId) : SignalMap :=
  (s, some i) :: eraseSig m s

/-- The signal-allocation scan in the constructor: the first signo in
SIGRTMIN..SIGRTMAX whose key is absent from signal_map_. The arguments
lo and hi stand for SIGRTMIN and SIGRTMAX. -/
def findFreeSignal (m : SignalMap) (lo hi : Nat) : Option Nat :=
  (List.range' lo (hi + 1 - lo)).find? (fun s => (findSig m s).isNone)

/-- Primitive actions performed by RobustTimer::signalHandler. The alloc
action stands for any memory allocation; the handler body never emits it
(std::map::find allocates nothing and sem_post allocates nothing). -/
inductive HandlerAct where
  | lockAcquire : HandlerAct
  | mapLookup : Nat → HandlerAct
  | semPostTo : InstId → HandlerAct
  | alloc : HandlerAct
  | lockRelease : HandlerAct
deriving DecidableEq, Repr

/-- RobustTimer::signalHandler(signo, info, context) as the ordered trace of
the operations it performs: it constructs a std::lock_guard on signal_mutex_,
calls signal_map_.find(signo), posts to the found instance's semaphore when
the entry exists and its stored pointer is nonnull, and releases the lock on
scope exit. -/
def signalHandlerTrace (m : SignalMap) (signo : Nat) : List HandlerAct :=
  [HandlerAct.lockAcquire, HandlerAct.mapLookup signo] ++
    (match findSig m signo with
     | some (some i) => [HandlerAct.semPostTo i]
     | _ => []) ++
    [HandlerAct.lockRelease]

/-- Outcome of one iteration of the worker loop after sem_wait returns. -/
inductive WakeOutcome where
  | exited : WakeOutcome
  | invokedAndBlocked : WakeOutcome
  | blockedNoInvoke : WakeOutcome
deriving DecidableEq, Repr

/-- One iteration of RobustTimer::workerThread after sem_wait returns:
the loop re-reads is_running_; when it is false the loop breaks (the thread
exits); otherwise, when callback_ is nonnull, the callback runs to completion
and the loop blocks on sem_wait again; with a null callback_ it merely blocks
again. -/
def workerOnWake (running : Bool) (hasCallback : Bool) : WakeOutcome :=
  if !running then WakeOutcome.exited
  else if hasCallback then WakeOutcome.invokedAndBlocked
  else WakeOutcome.blockedNoInvoke

/-- Per-instance mutable state touched by start / stop / changeTimeout:
the fields timeout_ns_ (a C++ long) and is_running_ (an atomic bool). -/
structure TimerState where
  timeout_ns : Int
  is_running : Bool
deriving DecidableEq, Repr

/-- A call to timer_settime, recorded with the it_value fields of the
itimerspec passed (it_interval is always zero: one-shot). -/
inductive OsEvent where
  | settimeCall : Int → Int → OsEvent
deriving DecidableEq, Repr

/-- The timer_settime call issued by RobustTimer::armTimer(timeout_ns):
it_value.tv_sec = timeout_ns / 1000000000 and
it_value.tv_nsec = timeout_ns % 1000000000, with C truncating division. -/
def armCall (ns : Int) : OsEvent :=
  OsEvent.settimeCall (Int.tdiv ns 1000000000) (Int.tmod ns 1000000000)

/-- Result of one public member-function call: the new per-instance state,
the timer_settime calls issued, and whether the call threw. -/
structure OpOut where
  state : TimerState
  calls : List OsEvent
  threw : Bool
deriving DecidableEq, Repr

/-- RobustTimer::start(): is_running_.exchange(true) returns the prior value;
when it was already true the function returns at once; otherwise it calls
armTimer(timeout_ns_), which throws when timer_settime fails (the input
settimeOk is the OS oracle for that call). -/
def start (st : TimerState) (settimeOk : Bool) : OpOut :=
  if st.is_running then
    { state := st, calls := [], threw := false }
  else
    { state := { st with is_running := true },
      calls := [armCall st.timeout_ns],
      threw := !settimeOk }

/-- RobustTimer::stop(): is_running_.exchange(false) returns the prior value;
when it was already false the function returns at once; otherwise it calls
disarmTimer(), a timer_settime with a zeroed itimerspec. -/
def stop (st : TimerState) (settimeOk : Bool) : OpOut :=
  if st.is_running then
    { state := { st with is_running := false },
      calls := [OsEvent.settimeCall 0 0],
      threw := !settimeOk }
  else
    { state := st, calls := [], threw := false }

/-- RobustTimer::changeTimeout(new_timeout_ns): assigns timeout_ns_ first,
then, when is_running_ is true, calls armTimer(timeout_ns_) with the updated
value. -/
def changeTimeout (st : TimerState) (d : Int) (settimeOk : Bool) : OpOut :=
  let st1 := { st with timeout_ns := d }
  if st1.is_running then
    { state := st1, calls := [armCall d], threw := !settimeOk }
  else
    { state := st1, calls := [], threw := false }

/-- Errors thrown by the RobustTimer constructor, in the order its body can
raise them: invalid_argument for a null callback, then the three
runtime_error throws (sem_init failure, no free signal number, timer_create
failure). -/
inductive CtorError where
  | invalidArgument : CtorError
  | semInitFailed : CtorError
  | resourceExhausted : CtorError
  | timerCreationFailed : CtorError
deriving DecidableEq, Repr

/-- Observable steps of the constructor body, in source order: sem_init (with
its success flag), sigaction for the chosen signal, the signal_map_ insert,
timer_create (with its success flag), the signal_map_ erase on the
timer_create failure path, and the worker-thread start. -/
inductive CtorEv where
  | semInit : Bool → CtorEv
  | sigInstall : Nat → CtorEv
  | mapInsert : Nat → CtorEv
  | timerCreate : Bool → CtorEv
  | mapErase : Nat → CtorEv
  | threadStart : CtorEv
deriving DecidableEq, Repr

/-- Result of one construction attempt: the outcome (the allocated signal
number on success, the error thrown otherwise), the registry after the
attempt, whether the wake semaphore is still a live initialized object when
the constructor returns or throws, and the trace of observable steps. -/
structure CtorResult where
  outcome : Except CtorError Nat
  map : SignalMap
  semLive : Bool
  trace : List CtorEv
deriving Repr

/-- RobustTimer::RobustTimer(timeout_ns, callback) against registry m, for an
object at address self. Inputs hasCallback, semOk, timerOk are the null-check
on callback_ and the OS oracles for sem_init and timer_create; lo and hi are
SIGRTMIN and SIGRTMAX. Source order: the null-callback check throws before
sem_init; sem_init; under signal_mutex_, the scan installs the handler via
sigaction and inserts this into signal_map_ at the first free signo; when no
signo is free, signal_number_ is still -1 and the constructor throws with the
semaphore left initialized; timer_create follows, and on its failure the
constructor erases the signal_map_ entry and throws, again leaving the
semaphore initialized; finally the worker thread is started. -/
def construct (m : SignalMap) (self : InstId) (hasCallback semOk timerOk : Bool)
    (lo hi : Nat) : CtorResult :=
  if !hasCallback then
    { outcome := Except.error CtorError.invalidArgument, map := m,
      semLive := false, trace := [] }
  else if !semOk then
    { outcome := Except.error CtorError.semInitFailed, map := m,
      semLive := false, trace := [CtorEv.semInit false] }
  else
    match findFreeSignal m lo hi with
    | none =>
        { outcome := Except.error CtorError.resourceExhausted, map := m,
          semLive := true, trace := [CtorEv.semInit true] }
    | some s =>
        if timerOk then
          { outcome := Except.ok s, map := insertSig m s self, semLive := true,
            trace := [CtorEv.semInit true, CtorEv.sigInstall s, CtorEv.mapInsert s,
                      CtorEv.timerCreate true, CtorEv.threadStart] }
        else
          { outcome := Except.error CtorError.timerCreationFailed,
            map := eraseSig (insertSig m s self) s, semLive := true,
            trace := [CtorEv.semInit true, CtorEv.sigInstall s, CtorEv.mapInsert s,
                      CtorEv.timerCreate false, CtorEv.mapErase s] }

/-- Observable steps of RobustTimer::~RobustTimer, in source order. The
stopCall step records the prior value of is_running_ observed by the stop()
call; disarm is the timer_settime with a zeroed itimerspec that stop()
performs only when that prior value was true. -/
inductive DtorEv where
  | stopCall : Bool → DtorEv
  | disarm : DtorEv
  | timerDelete : DtorEv
  | semPost : DtorEv
  | joinWorker : DtorEv
  | semDestroy : DtorEv
  | mapErase : DtorEv
deriving DecidableEq, Repr

/-- RobustTimer::~RobustTimer as the ordered trace of the operations it
performs when the OS calls succeed: stop() (which disarms only when the
timer was running), timer_delete, the sem_post sentinel that unblocks the
worker, the join of worker_thread_, sem_destroy, and finally, under
signal_mutex_, the signal_map_.erase that releases the channel. The input
running is the value of is_running_ on entry. -/
def destructorTrace (running : Bool) : List DtorEv :=
  (if running then [DtorEv.stopCall true, DtorEv.disarm]
   else [DtorEv.stopCall false]) ++
  [DtorEv.timerDelete, DtorEv.semPost, DtorEv.joinWorker, DtorEv.semDestroy,
   DtorEv.mapErase]

instance : DecidableEq (Except CtorError Nat) := fun a b =>
  match a, b with
  | Except.ok x, Except.ok y =>
      if h : x = y then isTrue (by rw [h]) else isFalse (by simp [h])
  | Except.error x, Except.error y =>
      if h : x = y then isTrue (by rw [h]) else isFalse (by simp [h])
  | Except.ok _, Except.error _ => isFalse (by simp)
  | Except.error _, Except.ok _ => isFalse (by simp)

/-- Erasing a key that is absent from the registry changes nothing. -/
theorem eraseSig_not_found (m : SignalMap) (s : Nat) (h : findSig m s = none) :
    eraseSig m s = m := by
  unfold findSig at h
  rw [Option.map_eq_none'] at h
  unfold eraseSig
  rw [List.filter_eq_self]
  intro a ha
  have := List.find?_eq_none.mp h a ha
  simpa using this

/-- After erasing a key, a lookup of that key misses. -/
theorem findSig_eraseSig_self (m : SignalMap) (s : Nat) :
    findSig (eraseSig m s) s = none := by
  unfold findSig
  rw [Option.map_eq_none']
  rw [List.find?_eq_none]
  intro x hx
  have hmem := List.mem_filter.mp hx
  simpa using hmem.2

/-- Looking up the key just stored finds the stored pointer. -/
theorem findSig_insertSig_self (m : SignalMap) (s : Nat) (i : InstId) :
    findSig (insertSig m s i) s = some (some i) := by
  simp [findSig, insertSig, List.find?]

/-- Erasing the key just stored yields the erasure of the original registry. -/
theorem eraseSig_insertSig (m : SignalMap) (s : Nat) (i : InstId) :
    eraseSig (insertSig m s i) s = eraseSig m s := by
  unfold insertSig eraseSig
  rw [List.filter_cons]
  simp [List.filter_filter]

/-- Claim C1, counterexample: a wake that arrives while the instance is
merely stopped (is_running_ false, object alive, callback_ nonnull) makes the
worker loop break and the thread exit, rather than leaving the worker blocked
on the wake primitive as the claim states. -/
theorem worker_wake_while_stopped_exits :
    workerOnWake false true = WakeOutcome.exited ∧
    workerOnWake false true ≠ WakeOutcome.blockedNoInvoke ∧
    workerOnWake false true ≠ WakeOutcome.invokedAndBlocked := by
  decide

/-- Claim C1, amended: on every wake the worker re-reads is_running_; when the
flag is set it invokes the callback synchronously to completion and blocks
again, but when the flag is clear — whether because of stop() or because of
teardown — the loop exits permanently. In particular a wake while merely
stopped terminates the worker, so a later start() arms the OS timer yet its
expiries can no longer lead to callback invocations. -/
theorem worker_loop_behavior : ∀ (running cb : Bool),
    (running = true → cb = true →
       workerOnWake running cb = WakeOutcome.invokedAndBlocked) ∧
    (running = false → workerOnWake running cb = WakeOutcome.exited) := by
  decide

/-- Witness for worker_loop_behavior at concrete flag values. -/
theorem worker_loop_behavior_witness :
    workerOnWake true true = WakeOutcome.invokedAndBlocked ∧
    workerOnWake false true = WakeOutcome.exited :=
  ⟨(worker_loop_behavior true true).1 rfl rfl,
   (worker_loop_behavior false true).2 rfl⟩

/-- Claim C2, counterexample: already on a registry with no entry at all, the
signal handler's very first action is to acquire the process-wide blocking
mutex signal_mutex_ (via std::lock_guard), so the handler does acquire a
blocking lock on every invocation. -/
theorem handler_acquires_mutex :
    HandlerAct.lockAcquire ∈ signalHandlerTrace [] 34 ∧
    (signalHandlerTrace [] 34).head? = some HandlerAct.lockAcquire := by
  decide

/-- Claim C2, amended: on every invocation the handler performs a single
registry lookup and posts a wake only to the semaphore of the instance
registered under the signal number, and it never allocates; however it first
acquires the process-wide registry mutex — a blocking lock — around the
lookup and the post. -/
theorem handler_actions : ∀ (m : SignalMap) (s : Nat),
    HandlerAct.lockAcquire ∈ signalHandlerTrace m s ∧
    HandlerAct.alloc ∉ signalHandlerTrace m s ∧
    ∀ i, HandlerAct.semPostTo i ∈ signalHandlerTrace m s →
      findSig m s = some (some i) := by
  intro m s
  refine ⟨by simp [signalHandlerTrace], ?_, ?_⟩
  · cases h : findSig m s with
    | none => simp [signalHandlerTrace, h]
    | some v => cases v <;> simp [signalHandlerTrace, h]
  · intro i hi
    unfold signalHandlerTrace at hi
    cases h : findSig m s with
    | none => rw [h] at hi; simp at hi
    | some v =>
      cases v with
      | none => rw [h] at hi; simp at hi
      | some j =>
        rw [h] at hi
        simp at hi
        simp [hi]

/-- Witness for handler_actions on a registry holding one instance. -/
theorem handler_actions_witness :
    HandlerAct.lockAcquire ∈ signalHandlerTrace [(3, some 7)] 3 ∧
    findSig [(3, some 7)] 3 = some (some 7) :=
  ⟨(handler_actions [(3, some 7)] 3).1,
   (handler_actions [(3, some 7)] 3).2.2 7 (by decide)⟩

/-- Claim C10: when the lookup misses (no entry for the signal number, or an
entry whose stored pointer is null) the handler performs no wake post and no
action beyond the lock, the lookup and the lock release; and any wake post it
does perform goes to the instance currently registered under that signal
number. -/
theorem handler_miss_noop : ∀ (m : SignalMap) (s : Nat),
    ((findSig m s = none ∨ findSig m s = some none) →
       signalHandlerTrace m s =
         [HandlerAct.lockAcquire, HandlerAct.mapLookup s,
          HandlerAct.lockRelease]) ∧
    ∀ i, HandlerAct.semPostTo i ∈ signalHandlerTrace m s →
      findSig m s = some (some i) := by
  intro m s
  constructor
  · rintro (h | h) <;> simp [signalHandlerTrace, h]
  · intro i hi
    unfold signalHandlerTrace at hi
    cases h : findSig m s with
    | none => rw [h] at hi; simp at hi
    | some v =>
      cases v with
      | none => rw [h] at hi; simp at hi
      | some j =>
        rw [h] at hi
        simp at hi
        simp [hi]

/-- Witness for handler_miss_noop: on the empty registry, a stale signal is a
harmless no-op. -/
theorem handler_miss_noop_witness :
    signalHandlerTrace [] 40 =
      [HandlerAct.lockAcquire, HandlerAct.mapLookup 40,
       HandlerAct.lockRelease] :=
  (handler_miss_noop [] 40).1 (Or.inl rfl)

/-- Claim C5: from any entry state, the destructor runs stop (whose only OS
action is the disarm it performs when the timer was running), then
timer_delete, then the sentinel sem_post, then the join of the worker thread,
then sem_destroy, and releases the signal_map_ channel entry strictly last —
in particular strictly after the OS binding is destroyed and strictly after
the worker has been joined. -/
theorem dtor_release_order : ∀ r : Bool,
    ∃ stopPart,
      destructorTrace r =
        DtorEv.stopCall r :: stopPart ++
          [DtorEv.timerDelete, DtorEv.semPost, DtorEv.joinWorker,
           DtorEv.semDestroy, DtorEv.mapErase] ∧
      ∀ e ∈ stopPart, e = DtorEv.disarm := by
  intro r
  cases r with
  | false => exact ⟨[], by decide, by decide⟩
  | true => exact ⟨[DtorEv.disarm], by decide, by decide⟩

/-- Witness for dtor_release_order at a running instance. -/
theorem dtor_release_order_witness :
    ∃ stopPart,
      destructorTrace true =
        DtorEv.stopCall true :: stopPart ++
          [DtorEv.timerDelete, DtorEv.semPost, DtorEv.joinWorker,
           DtorEv.semDestroy, DtorEv.mapErase] ∧
      ∀ e ∈ stopPart, e = DtorEv.disarm :=
  dtor_release_order true

/-- Claim C6: changeTimeout(d) stores d into timeout_ns_; when the instance
is running it immediately issues the single timer_settime re-arm computed
from d, and when it is stopped it issues no timer_settime call, the stored
duration becomes d, and the next start() arms with d. -/
theorem changeTimeout_spec : ∀ (st : TimerState) (d : Int) (ok : Bool),
    (changeTimeout st d ok).state.timeout_ns = d ∧
    (st.is_running = true → (changeTimeout st d ok).calls = [armCall d]) ∧
    (st.is_running = false →
       (changeTimeout st d ok).calls = [] ∧
       ∀ b : Bool, (start (changeTimeout st d ok).state b).calls = [armCall d]) := by
  intro st d ok
  cases h : st.is_running <;> simp [changeTimeout, start, h]

/-- Witness for changeTimeout_spec on a stopped instance. -/
theorem changeTimeout_spec_witness :
    (changeTimeout ⟨100, false⟩ 7 true).state.timeout_ns = 7 ∧
    (changeTimeout ⟨100, false⟩ 7 true).calls = [] :=
  ⟨(changeTimeout_spec ⟨100, false⟩ 7 true).1,
   ((changeTimeout_spec ⟨100, false⟩ 7 true).2.2 rfl).1⟩

/-- Claim C7: start() from the stopped state sets is_running_ and issues the
single arm call computed from the configured timeout; start() while already
running returns at once — no arm call, no state change, no throw. -/
theorem start_idempotent : ∀ (st : TimerState) (ok : Bool),
    (st.is_running = false →
       (start st ok).state = { timeout_ns := st.timeout_ns, is_running := true } ∧
       (start st ok).calls = [armCall st.timeout_ns]) ∧
    (st.is_running = true →
       (start st ok).state = st ∧ (start st ok).calls = [] ∧
       (start st ok).threw = false) := by
  intro st ok
  cases h : st.is_running <;> simp [start, h]

/-- Witness for start_idempotent on an already running instance. -/
theorem start_idempotent_witness :
    (start ⟨50, true⟩ true).state = (⟨50, true⟩ : TimerState) ∧
    (start ⟨50, true⟩ true).calls = [] ∧
    (start ⟨50, true⟩ true).threw = false :=
  (start_idempotent ⟨50, true⟩ true).2 rfl

/-- Claim C9: arm failures are not atomic with respect to instance state.
When timer_settime fails during start() from the stopped state the exception
propagates with is_running_ already set, so every subsequent start() is a
no-op that arms nothing; when the re-arm fails during changeTimeout(d) the
stored duration has already been updated to d and is not rolled back. -/
theorem arm_failure_not_atomic : ∀ (st : TimerState) (d : Int),
    (st.is_running = false →
       (start st false).threw = true ∧
       (start st false).state.is_running = true ∧
       ∀ b : Bool, start (start st false).state b =
         { state := (start st false).state, calls := [], threw := false }) ∧
    (st.is_running = true →
       (changeTimeout st d false).threw = true ∧
       (changeTimeout st d false).state.timeout_ns = d) := by
  intro st d
  cases h : st.is_running <;> simp [start, changeTimeout, h]

/-- Witness for arm_failure_not_atomic at concrete states. -/
theorem arm_failure_not_atomic_witness :
    (start ⟨9, false⟩ false).threw = true ∧
    (changeTimeout ⟨9, true⟩ 5 false).state.timeout_ns = 5 :=
  ⟨((arm_failure_not_atomic ⟨9, false⟩ 5).1 rfl).1,
   ((arm_failure_not_atomic ⟨9, true⟩ 5).2 rfl).2⟩

/-- Claim C3, counterexample: with every signal in the SIGRTMIN..SIGRTMAX
pool already owned, the construction attempt throws for channel exhaustion
while the wake semaphore it had already set up with sem_init is still live —
the constructor never calls sem_destroy on any failure path, so the semaphore
is not released before the throw as the claim states. -/
theorem ctor_exhaustion_leaks_semaphore :
    (construct [(3, some 0)] 1 true true true 3 3).outcome =
      Except.error CtorError.resourceExhausted ∧
    (construct [(3, some 0)] 1 true true true 3 3).semLive = true := by
  decide

/-- Claim C3, amended: a failing construction attempt produces no instance
and leaves the registry unchanged (in particular the channel reserved before
a timer_create failure is erased again before the throw), but the wake
semaphore is not destroyed before the constructor raises: it stays live
exactly on the channel-exhaustion and timer-creation failure paths, the two
paths reached after a successful sem_init. -/
theorem ctor_failure_cleanup :
    ∀ (m : SignalMap) (self : InstId) (cb so tc : Bool) (lo hi : Nat)
      (e : CtorError),
    (construct m self cb so tc lo hi).outcome = Except.error e →
    (construct m self cb so tc lo hi).map = m ∧
    ((construct m self cb so tc lo hi).semLive = true ↔
       (e = CtorError.resourceExhausted ∨ e = CtorError.timerCreationFailed)) := by
  intro m self cb so tc lo hi e h
  cases cb with
  | false =>
    simp [construct] at h ⊢
    subst h
    simp
  | true =>
    cases so with
    | false =>
      simp [construct] at h ⊢
      subst h
      simp
    | true =>
      cases hf : findFreeSignal m lo hi with
      | none =>
        simp [construct, hf] at h ⊢
        subst h
        simp
      | some s1 =>
        cases tc with
        | true => simp [construct, hf] at h
        | false =>
          have hfree : findSig m s1 = none := by
            unfold findFreeSignal at hf
            have hp := List.find?_some hf
            simp only [Option.isNone_iff_eq_none] at hp
            exact hp
          simp [construct, hf] at h ⊢
          subst h
          constructor
          · rw [eraseSig_insertSig, eraseSig_not_found m s1 hfree]
          · simp

/-- Witness for ctor_failure_cleanup on the exhaustion path. -/
theorem ctor_failure_cleanup_witness :
    (construct [(3, some 0)] 1 true true true 3 3).map = [(3, some 0)] ∧
    ((construct [(3, some 0)] 1 true true true 3 3).semLive = true ↔
       (CtorError.resourceExhausted = CtorError.resourceExhausted ∨
        CtorError.resourceExhausted = CtorError.timerCreationFailed)) :=
  ctor_failure_cleanup [(3, some 0)] 1 true true true 3 3
    CtorError.resourceExhausted (by decide)

/-- Claim C4, counterexample: in a construction attempt in which timer_create
fails, the signal_map_ entry had nonetheless been inserted — the insertion
happens before the OS binding is even attempted, so entries are not inserted
only after the OS binding has been successfully established. -/
theorem registry_insert_before_binding :
    CtorEv.mapInsert 3 ∈ (construct [] 0 true true false 3 5).trace ∧
    CtorEv.timerCreate true ∉ (construct [] 0 true true false 3 5).trace := by
  decide

/-- Claim C4, amended: each registry entry is inserted exactly once during
construction, but before the OS binding is attempted rather than after it
succeeds; when the binding then fails the entry is removed again before the
constructor raises, leaving the registry as it was, while on success the
entry maps the channel to the owning instance and is not removed by the
constructor; at destruction the entry is removed exactly once, strictly
after timer_delete. -/
theorem registry_discipline :
    ∀ (m : SignalMap) (self : InstId) (cb so tc : Bool) (lo hi s : Nat)
      (r : Bool),
    (CtorEv.mapInsert s ∈ (construct m self cb so tc lo hi).trace →
       ∃ pre post,
         (construct m self cb so tc lo hi).trace =
           pre ++ CtorEv.mapInsert s :: post ∧
         CtorEv.mapInsert s ∉ pre ∧ CtorEv.mapInsert s ∉ post ∧
         CtorEv.timerCreate tc ∈ post) ∧
    ((construct m self cb so tc lo hi).outcome = Except.ok s →
       findSig (construct m self cb so tc lo hi).map s = some (some self) ∧
       CtorEv.mapErase s ∉ (construct m self cb so tc lo hi).trace) ∧
    (CtorEv.mapInsert s ∈ (construct m self cb so tc lo hi).trace →
       tc = false →
       CtorEv.mapErase s ∈ (construct m self cb so tc lo hi).trace ∧
       (construct m self cb so tc lo hi).map = m) ∧
    (∃ pre, destructorTrace r = pre ++ [DtorEv.mapErase] ∧
       DtorEv.mapErase ∉ pre ∧ DtorEv.timerDelete ∈ pre) := by
  intro m self cb so tc lo hi s r
  have hdtor : ∃ pre, destructorTrace r = pre ++ [DtorEv.mapErase] ∧
      DtorEv.mapErase ∉ pre ∧ DtorEv.timerDelete ∈ pre := by
    cases r with
    | false =>
      exact ⟨[DtorEv.stopCall false, DtorEv.timerDelete, DtorEv.semPost,
              DtorEv.joinWorker, DtorEv.semDestroy],
             by decide, by decide, by decide⟩
    | true =>
      exact ⟨[DtorEv.stopCall true, DtorEv.disarm, DtorEv.timerDelete,
              DtorEv.semPost, DtorEv.joinWorker, DtorEv.semDestroy],
             by decide, by decide, by decide⟩
  cases cb with
  | false =>
    exact ⟨by simp [construct], by simp [construct], by simp [construct], hdtor⟩
  | true =>
    cases so with
    | false =>
      exact ⟨by simp [construct], by simp [construct], by simp [construct], hdtor⟩
    | true =>
      cases hf : findFreeSignal m lo hi with
      | none =>
        exact ⟨by simp [construct, hf], by simp [construct, hf],
               by simp [construct, hf], hdtor⟩
      | some s1 =>
        cases tc with
        | true =>
          refine ⟨?_, ?_, ?_, hdtor⟩
          · intro hmem
            have hs : s = s1 := by simpa [construct, hf] using hmem
            subst hs
            exact ⟨[CtorEv.semInit true, CtorEv.sigInstall s],
                   [CtorEv.timerCreate true, CtorEv.threadStart],
                   by simp [construct, hf], by simp, by simp, by simp⟩
          · intro hok
            have hs : s1 = s := by simpa [construct, hf] using hok
            subst hs
            have hmap : (construct m self true true true lo hi).map =
                insertSig m s1 self := by simp [construct, hf]
            refine ⟨?_, by simp [construct, hf]⟩
            rw [hmap]
            exact findSig_insertSig_self m s1 self
          · intro hmem hto
            exact absurd hto (by decide)
        | false =>
          refine ⟨?_, ?_, ?_, hdtor⟩
          · intro hmem
            have hs : s = s1 := by simpa [construct, hf] using hmem
            subst hs
            exact ⟨[CtorEv.semInit true, CtorEv.sigInstall s],
                   [CtorEv.timerCreate false, CtorEv.mapErase s],
                   by simp [construct, hf], by simp, by simp, by simp⟩
          · intro hok
            simp [construct, hf] at hok
          · intro hmem hto
            have hs : s = s1 := by simpa [construct, hf] using hmem
            subst hs
            have hfree : findSig m s = none := by
              unfold findFreeSignal at hf
              have hp := List.find?_some hf
              simp only [Option.isNone_iff_eq_none] at hp
              exact hp
            refine ⟨by simp [construct, hf], ?_⟩
            have hmap : (construct m self true true false lo hi).map =
                eraseSig (insertSig m s self) s := by simp [construct, hf]
            rw [hmap, eraseSig_insertSig, eraseSig_not_found m s hfree]

/-- Witness for registry_discipline at a concrete successful construction. -/
theorem registry_discipline_witness :
    ∃ pre post,
      (construct [] 0 true true true 3 5).trace =
        pre ++ CtorEv.mapInsert 3 :: post ∧
      CtorEv.mapInsert 3 ∉ pre ∧ CtorEv.mapInsert 3 ∉ post ∧
      CtorEv.timerCreate true ∈ post :=
  (registry_discipline [] 0 true true true 3 5 3 true).1 (by decide)

/-- Claim C8: when every channel in the SIGRTMIN..SIGRTMAX pool is owned, the
next construction attempt fails for channel exhaustion and leaves the
registry — hence every existing instance's entry and state — untouched;
after one instance's destructor erases its entry, a subsequent construction
attempt succeeds. -/
theorem exhaustion_graceful :
    ∀ (m : SignalMap) (self self2 : InstId) (lo hi s0 : Nat),
    (∀ s ∈ List.range' lo (hi + 1 - lo), (findSig m s).isSome = true) →
    s0 ∈ List.range' lo (hi + 1 - lo) →
    ((construct m self true true true lo hi).outcome =
        Except.error CtorError.resourceExhausted ∧
     (construct m self true true true lo hi).map = m ∧
     ∃ s, (construct (eraseSig m s0) self2 true true true lo hi).outcome =
        Except.ok s) := by
  intro m self self2 lo hi s0 hfull hmem
  have hnone : findFreeSignal m lo hi = none := by
    unfold findFreeSignal
    rw [List.find?_eq_none]
    intro x hx
    have hs := hfull x hx
    intro hc
    simp only [Option.isNone_iff_eq_none] at hc
    rw [hc] at hs
    simp at hs
  have hsome : ∃ s, findFreeSignal (eraseSig m s0) lo hi = some s := by
    have hpred : (findSig (eraseSig m s0) s0).isNone = true := by
      rw [findSig_eraseSig_self]
      rfl
    have h1 : ((List.range' lo (hi + 1 - lo)).find?
        (fun s => (findSig (eraseSig m s0) s).isNone)).isSome := by
      rw [List.find?_isSome]
      exact ⟨s0, hmem, hpred⟩
    obtain ⟨s, hs⟩ := Option.isSome_iff_exists.mp h1
    exact ⟨s, by unfold findFreeSignal; exact hs⟩
  obtain ⟨s, hs⟩ := hsome
  exact ⟨by simp [construct, hnone], by simp [construct, hnone],
         s, by simp [construct, hs]⟩

/-- Witness for exhaustion_graceful on a three-channel pool, fully owned by
three live instances, one of which is then destroyed. -/
theorem exhaustion_graceful_witness :
    (construct [(3, some 10), (4, some 11), (5, some 12)] 0 true true true 3 5).outcome =
        Except.error CtorError.resourceExhausted ∧
    (construct [(3, some 10), (4, some 11), (5, some 12)] 0 true true true 3 5).map =
        [(3, some 10), (4, some 11), (5, some 12)] ∧
    ∃ s, (construct (eraseSig [(3, some 10), (4, some 11), (5, some 12)] 4)
        1 true true true 3 5).outcome = Except.ok s :=
  exhaustion_graceful [(3, some 10), (4, some 11), (5, some 12)] 0 1 3 5 4
    (by decide) (by decide)

end RobustTimer
